import Mathlib

/-!
Formal model of the EastcoatsRL storefront bot (bot.py, monero_handler.py,
database.py, config.py).

Conventions of the embedding:
- Python `float` timestamps (`time.time()`) and `datetime` values are modelled
  as `Rat` (seconds); `datetime` arithmetic such as `timedelta(minutes=30)`
  becomes `+ 1800`.
- XMR amounts are modelled as `Rat`.  `monero_handler.check_payment` computes
  with exact `Decimal` values (integer piconero divided by `1e12`), which the
  rational arithmetic reproduces exactly.
- SQLAlchemy sessions: a `with Session() as session:` block that exits without
  `session.commit()` discards all pending changes (flushes included), so an
  operation is modelled as a pure function on a database value that returns
  the original database on every path that does not reach `commit()`.
- External RPC and oracle calls are passed in as explicit arguments (the value
  the Python call would have returned), keeping the functions pure.
-/

namespace EastcoatsRL

/-! ## Rate limiter (bot.py, class RateLimiter) -/

/-- Model of `RateLimiter`: `calls` is the `defaultdict(list)` of accepted-call
timestamps keyed by user id (absent key = `[]`), `max_calls` and `period` the
constructor arguments (module instance `rate_limiter` uses the defaults 10
and 60). -/
structure RateLimiter where
  calls : Nat → List Rat
  max_calls : Nat
  period : Rat

/-- Model of the module-level `rate_limiter = RateLimiter()` instance
(defaults `max_calls=10`, `period=60`). -/
def rate_limiter : RateLimiter :=
  { calls := fun _ => [], max_calls := 10, period := 60 }

/-- Model of `RateLimiter.is_allowed` (bot.py lines 47-53): prune the user's
timestamps to the sliding window, reject without recording when the pruned
count has reached `max_calls`, otherwise record `now` and accept. -/
def RateLimiter.is_allowed (rl : RateLimiter) (user_id : Nat) (now : Rat) :
    Bool × RateLimiter :=
  let pruned := (rl.calls user_id).filter (fun t => decide (now - t < rl.period))
  if pruned.length ≥ rl.max_calls then
    (false, { rl with calls := fun u => if u = user_id then pruned else rl.calls u })
  else
    (true, { rl with calls := fun u => if u = user_id then pruned ++ [now] else rl.calls u })

/-! ## Per-user dialogue state (bot.py, MoneroBot.get_user_state and the
checkout dialogue) -/

/-- Model of one entry of `MoneroBot.user_states`.  The Python dict holds
`created_at` always, and the checkout keys only once set; absent keys read as
falsy / empty, so they are modelled as `false` / `""`. -/
structure UserState where
  created_at : Rat
  checkout_flow : Bool
  current_step : String
  full_name : String
  street_address : String
  apt_number : String
  city : String
  state : String
  zip_code : String
deriving DecidableEq, Repr

/-- Model of the fresh dictionary `{'created_at': time.time()}` installed by
`get_user_state` (only `created_at` is present; every checkout key is absent,
hence falsy). -/
def freshState (now : Rat) : UserState :=
  { created_at := now, checkout_flow := false, current_step := "",
    full_name := "", street_address := "", apt_number := "",
    city := "", state := "", zip_code := "" }

/-- Model of `MoneroBot.get_user_state` (bot.py lines 139-151): create a fresh
entry when absent; otherwise replace the entry with a fresh one when it is
older than 3600 seconds (strictly), and return it. -/
def get_user_state (entry : Option UserState) (now : Rat) : UserState :=
  match entry with
  | none => freshState now
  | some s => if now - s.created_at > 3600 then freshState now else s

/-- Model of `MoneroBot._start_checkout`'s state update (bot.py lines 456-460):
`user_state.update({'checkout_flow': True, 'current_step': 'full_name'})`.
Note that `created_at` is left unchanged. -/
def start_checkout_state (s : UserState) : UserState :=
  { s with checkout_flow := true, current_step := "full_name" }

/-- Characters removed by Python `str.strip()` (ASCII whitespace: space, tab,
newline, carriage return, vertical tab, form feed). -/
def pyWs (c : Char) : Bool :=
  c == ' ' || c == '\t' || c == '\n' || c == '\r' || c == Char.ofNat 11 || c == Char.ofNat 12

/-- Model of Python `str.strip()`: drop leading and trailing whitespace. -/
def pyStrip (s : String) : String :=
  ⟨((s.data.dropWhile pyWs).reverse.dropWhile pyWs).reverse⟩

/-- Model of Python `str.lower()` (ASCII case mapping). -/
def pyLower (s : String) : String :=
  ⟨s.data.map Char.toLower⟩

/-- Helper modelling Python `str.isalnum()` on the character list of a string
(ASCII approximation): true exactly when the list is non-empty and every
character is alphanumeric. -/
def pyIsAlnum (cs : List Char) : Bool :=
  !cs.isEmpty && cs.all Char.isAlphanum

/-- Model of `MoneroBot._validate_input` (bot.py lines 473-490).  The input is
stripped first; each step has its own minimum-length rule; the `zip_code` step
additionally requires the string with spaces and hyphens removed to be
alphanumeric.  Steps without a rule — in particular `apt_number` — fall
through to `(True, "")`. -/
def validate_input (step : String) (value : String) : Bool × String :=
  let value := pyStrip value
  if step == "full_name" && decide (value.length < 3) then
    (false, "Full name must be at least 3 characters")
  else if step == "street_address" && decide (value.length < 5) then
    (false, "Street address too short")
  else if step == "city" && decide (value.length < 2) then
    (false, "City too short")
  else if step == "state" && decide (value.length < 2) then
    (false, "State too short")
  else if step == "zip_code" && decide (value.length < 3) then
    (false, "ZIP code must be at least 3 characters")
  else if step == "zip_code" &&
      !pyIsAlnum (value.toList.filter (fun c => !(c == ' ' || c == '-'))) then
    (false, "ZIP code can only contain letters, numbers, and hyphens")
  else
    (true, "")

/-- Entry of the `steps` table in `MoneroBot._collect_shipping_info`
(bot.py lines 507-514): the user-state field written at this step and the step
that follows. -/
structure StepInfo where
  field : String
  next : String
deriving DecidableEq, Repr

/-- Model of the `steps` dictionary (bot.py lines 507-514). -/
def stepsInfo (step : String) : Option StepInfo :=
  if step == "full_name" then some ⟨"full_name", "street_address"⟩
  else if step == "street_address" then some ⟨"street_address", "apt_number"⟩
  else if step == "apt_number" then some ⟨"apt_number", "city"⟩
  else if step == "city" then some ⟨"city", "state"⟩
  else if step == "state" then some ⟨"state", "zip_code"⟩
  else if step == "zip_code" then some ⟨"zip_code", "complete"⟩
  else none

/-- Helper writing `user_state[steps[current_step]['field']] = text`
(bot.py line 530). -/
def setField (s : UserState) (field : String) (v : String) : UserState :=
  if field == "full_name" then { s with full_name := v }
  else if field == "street_address" then { s with street_address := v }
  else if field == "apt_number" then { s with apt_number := v }
  else if field == "city" then { s with city := v }
  else if field == "state" then { s with state := v }
  else if field == "zip_code" then { s with zip_code := v }
  else s

/-- Outcome of one `_collect_shipping_info` call, as observable from the
handler: the message was ignored (no checkout flow), the dialogue state was
cleared (unknown step), the input was rejected (re-prompt, same step), the
dialogue advanced to the next step, or all fields are complete and order
creation is triggered. -/
inductive CollectOutcome
  | notInFlow
  | unknownStep
  | invalid
  | advanced
  | complete
deriving DecidableEq, Repr

/-- Model of `MoneroBot._collect_shipping_info` (bot.py lines 492-541) acting
on one user's dialogue state.  `none` as result state models
`clear_user_state` (the dict entry is deleted).  The incoming message text is
stripped (bot.py line 503) before validation and storage. -/
def collect_shipping_info (s : UserState) (input : String) :
    Option UserState × CollectOutcome :=
  if !s.checkout_flow then (some s, .notInFlow)
  else
    let text := pyStrip input
    match stepsInfo s.current_step with
    | none => (none, .unknownStep)
    | some info =>
      if !(validate_input s.current_step text).1 then (some s, .invalid)
      else
        let s1 := setField s info.field text
        if info.next == "complete" then (some s1, .complete)
        else (some { s1 with current_step := info.next }, .advanced)

/-- Model of the apartment-number conversion in
`MoneroBot._create_order_from_cart` (bot.py line 567):
`user_state['apt_number'] if user_state['apt_number'].lower() != 'none' else None`. -/
def apt_number_to_db (s : String) : Option String :=
  if pyLower s == "none" then none else some s

/-! ## Payment oracle (monero_handler.py, MoneroHandler.check_payment)

`MoneroHandler.rpc_call` returns `None` both on transport failure
(`RequestException`), on JSON decode failure, and on a JSON-RPC error field;
otherwise it returns the `result` object.  Each RPC the code makes is modelled
as an `Option` field of `RpcEnv`: `none` is the `rpc_call` failure value,
`some` a successful result. -/

/-- Entry of the `payments` list returned by the wallet RPC `get_payments`
method.  `amount` is in atomic units (piconero), as the code divides it by
`Decimal(1e12)`. -/
structure PaymentRec where
  amount : Nat
  tx_hash : String
  block_height : Nat
deriving DecidableEq, Repr

/-- Entry of the `in` list returned by the wallet RPC `get_transfers`
method.  `amount` is again in atomic units. -/
structure TransferRec where
  address : String
  amount : Nat
  txid : String
  confirmations : Nat
deriving DecidableEq, Repr

/-- Responses of the three wallet-RPC calls `check_payment` makes, each
`none` when `rpc_call` fails (transport error, parse error, RPC error field)
— the code cannot tell that case apart from any other `None`.  For
`get_height`, a successful result is projected to its `height` value. -/
structure RpcEnv where
  get_height : Option Nat
  get_payments : Option (List PaymentRec)
  get_transfers : Option (List TransferRec)
deriving DecidableEq, Repr

/-- Observation dictionary returned by `check_payment` (the keys the callers
read: `tx_hash`, `amount`, `confirmations`; the `block_height` and
`payment_id` keys of the method-1 dictionary are not read by any caller and
are omitted). -/
structure Observation where
  tx_hash : String
  amount : Rat
  confirmations : Nat
deriving DecidableEq, Repr

/-- Epsilon of the amount comparison on the `get_payments` path:
`Decimal('0.000001')` (monero_handler.py line 147). -/
def EPS : Rat := 1 / 1000000

/-- Atomic units per XMR: `Decimal(1e12)`. -/
def PICO : Rat := 1000000000000

/-- Helper modelling the Python substring test `needle in hay`. -/
def containsSub (hay needle : String) : Bool :=
  (List.range (hay.length + 1)).any (fun i => needle.toList.isPrefixOf (hay.toList.drop i))

/-- Amount condition of the `get_payments` path (monero_handler.py line 147):
`amount_xmr >= Decimal(expected_amount) - Decimal('0.000001')`. -/
def paymentMatches (expected_amount : Rat) (p : PaymentRec) : Bool :=
  decide ((p.amount : Rat) / PICO ≥ expected_amount - EPS)

/-- Match condition of the `get_transfers` fallback path (monero_handler.py
lines 168-169): a truthy address that contains the payment id, and amount
`>= Decimal(expected_amount)` — with no epsilon. -/
def transferMatches (payment_id : String) (expected_amount : Rat) (t : TransferRec) : Bool :=
  !(t.address == "") && containsSub t.address payment_id &&
    decide ((t.amount : Rat) / PICO ≥ expected_amount)

/-- Model of `MoneroHandler.check_payment` (monero_handler.py lines 124-183).
A failed `get_height` call returns `None` immediately; otherwise the first
matching entry of `get_payments` is returned (confirmations computed as
`max(0, wallet_height - block_height)` when a block height is known — `Nat`
subtraction truncates at zero exactly like the `max`); otherwise the first
matching entry of the `get_transfers` fallback; otherwise `None`. -/
def check_payment (env : RpcEnv) (payment_id : String) (expected_amount : Rat) :
    Option Observation :=
  match env.get_height with
  | none => none
  | some wallet_height =>
    let fromPayments : Option Observation :=
      match env.get_payments with
      | none => none
      | some ps =>
        (ps.find? (paymentMatches expected_amount)).map (fun p =>
          { tx_hash := p.tx_hash,
            amount := (p.amount : Rat) / PICO,
            confirmations := if p.block_height > 0 then wallet_height - p.block_height else 0 })
    match fromPayments with
    | some obs => some obs
    | none =>
      match env.get_transfers with
      | none => none
      | some ts =>
        (ts.find? (transferMatches payment_id expected_amount)).map (fun t =>
          { tx_hash := t.txid,
            amount := (t.amount : Rat) / PICO,
            confirmations := t.confirmations })

/-! ## Database model (database.py)

Rows are modelled as structures carrying the columns the claims touch;
autoincrement primary keys are drawn from a `next_id` counter of the
database value.  Users are identified by their id directly (the code looks a
`User` row up by `telegram_id` first; all modelled operations assume the
acting user is registered, which `_register_user` guarantees on `/start`). -/

/-- Row of `products` (database.py lines 24-36). -/
structure Product where
  id : Nat
  name : String
  price_xmr : Rat
  is_available : Bool
deriving DecidableEq, Repr

/-- Row of `carts` (database.py lines 52-61); `user_id` is unique (one cart
per user). -/
structure Cart where
  id : Nat
  user_id : Nat
deriving DecidableEq, Repr

/-- Row of `cart_items` (database.py lines 63-73). -/
structure CartItem where
  id : Nat
  cart_id : Nat
  product_id : Nat
  quantity : Nat
deriving DecidableEq, Repr

/-- Row of `shipping_addresses` (database.py lines 38-50); `apt_number` is
nullable. -/
structure ShippingAddress where
  id : Nat
  full_name : String
  street_address : String
  apt_number : Option String
  city : String
  state : String
  zip_code : String
deriving DecidableEq, Repr

/-- Row of `orders` (database.py lines 75-94).  `expires_at` and
`confirmed_at` are timestamps in seconds. -/
structure Order where
  id : Nat
  user_id : Nat
  shipping_address_id : Nat
  total_amount_xmr : Rat
  payment_address : String
  payment_id : String
  payment_request : String
  status : String
  expires_at : Rat
  confirmed_at : Option Rat
deriving DecidableEq, Repr

/-- Row of `order_items` (database.py lines 96-106); `price_xmr` is the price
snapshot taken at order time.  The primary key is never read, so it is
omitted. -/
structure OrderItem where
  order_id : Nat
  product_id : Nat
  quantity : Nat
  price_xmr : Rat
deriving DecidableEq, Repr

/-- Row of `payments` (database.py lines 108-118); the primary key is never
read, so it is omitted. -/
structure Payment where
  order_id : Nat
  tx_hash : String
  amount_xmr : Rat
  confirmations : Nat
deriving DecidableEq, Repr

/-- One committed database state. -/
structure DB where
  products : List Product
  carts : List Cart
  cart_items : List CartItem
  orders : List Order
  order_items : List OrderItem
  payments : List Payment
  addresses : List ShippingAddress
  next_id : Nat
deriving DecidableEq, Repr

/-- Price of a product looked up through the `product` relationship
(`cart_item.product.price_xmr`).  The foreign key guarantees the product row
exists whenever the code dereferences it; the `0` default is unreachable
there. -/
def priceOf (db : DB) (pid : Nat) : Rat :=
  ((db.products.find? (fun p => p.id == pid)).map Product.price_xmr).getD 0

/-- Cart items of one cart (the `cart.cart_items` relationship). -/
def cartItemsOf (db : DB) (cart_id : Nat) : List CartItem :=
  db.cart_items.filter (fun ci => ci.cart_id == cart_id)

/-- Live cart total, `sum(item.product.price_xmr * item.quantity ...)`
(bot.py lines 275, 454, 561). -/
def cartTotal (db : DB) (cart_id : Nat) : Rat :=
  (cartItemsOf db cart_id).foldl (fun acc ci => acc + priceOf db ci.product_id * (ci.quantity : Rat)) 0

/-- Helper replacing the order row of the same id (a mutation of a loaded ORM
object followed by `session.commit()`). -/
def replaceOrder (db : DB) (o : Order) : DB :=
  { db with orders := db.orders.map (fun x => if x.id == o.id then o else x) }

/-! ## Operations (bot.py, monero_handler.py) -/

/-- The configuration constant `CONFIRMATIONS_REQUIRED` (config.py line 20);
`getattr(config, "CONFIRMATIONS_REQUIRED", 10)` reads it with default 10,
and the value is 10 in both cases. -/
def CONFIRMATIONS_REQUIRED : Nat := 10

/-- Item half of `MoneroBot._add_to_cart` (bot.py lines 411-415): either
increment the quantity of the existing `CartItem` of this cart and product,
or insert a new one with quantity 1. -/
def add_cart_item (db : DB) (cart_id : Nat) (product_id : Nat) : DB :=
  match db.cart_items.find? (fun ci => ci.cart_id == cart_id && ci.product_id == product_id) with
  | some ci =>
    { db with cart_items := db.cart_items.map (fun x =>
        if x.id == ci.id then { x with quantity := x.quantity + 1 } else x) }
  | none =>
    { db with cart_items := db.cart_items ++
                [{ id := db.next_id, cart_id := cart_id,
                   product_id := product_id, quantity := 1 }],
              next_id := db.next_id + 1 }

/-- Model of `MoneroBot._add_to_cart` (bot.py lines 398-417): unknown product
is a no-op; otherwise get-or-create the user's cart (the user is registered,
`/start` guarantees the row), then `add_cart_item` on it. -/
def add_to_cart (db : DB) (uid : Nat) (product_id : Nat) : DB :=
  match db.products.find? (fun p => p.id == product_id) with
  | none => db
  | some _ =>
    match db.carts.find? (fun c => c.user_id == uid) with
    | some c => add_cart_item db c.id product_id
    | none =>
      add_cart_item
        { db with carts := db.carts ++ [{ id := db.next_id, user_id := uid }],
                  next_id := db.next_id + 1 }
        db.next_id product_id

/-- Result dictionary of `MoneroHandler.create_payment_request` read by
`_create_order_from_cart` (the caller reads `integrated_address`,
`payment_id` and `payment_request`; the `amount_xmr` and `expires_at` keys
are unused). -/
structure PaymentData where
  payment_request : String
  integrated_address : String
  payment_id : String
deriving DecidableEq, Repr

/-- Model of `MoneroBot._create_order_from_cart` (bot.py lines 543-653) as a
function of the committed database.  `payment_data` is the value the
`create_payment_request` oracle call returned (`none` covers both the RPC
failure and the exception-swallowing path, which both return `None`).

Missing user / missing cart / empty cart: error reply, nothing committed.
Oracle failure: error reply, nothing committed — the `ShippingAddress` that
was `session.add`-ed and flushed before the oracle call is rolled back when
the session closes without `commit()`, so the committed database is
unchanged.
Success: one commit persists the shipping address, the order (expiring
`now + 30*60`), one price-snapshotted `OrderItem` per cart item, and deletes
the cart (its items cascade). -/
def create_order_from_cart (db : DB) (uid : Nat) (st : UserState)
    (payment_data : Option PaymentData) (now : Rat) : DB :=
  match db.carts.find? (fun c => c.user_id == uid) with
  | none => db
  | some cart =>
    if (cartItemsOf db cart.id).isEmpty then db
    else
      let total := cartTotal db cart.id
      match payment_data with
      | none => db
      | some pd =>
        let addr : ShippingAddress :=
          { id := db.next_id, full_name := st.full_name,
            street_address := st.street_address,
            apt_number := apt_number_to_db st.apt_number,
            city := st.city, state := st.state, zip_code := st.zip_code }
        let order : Order :=
          { id := db.next_id + 1, user_id := uid, shipping_address_id := addr.id,
            total_amount_xmr := total, payment_address := pd.integrated_address,
            payment_id := pd.payment_id, payment_request := pd.payment_request,
            status := "pending", expires_at := now + 1800, confirmed_at := none }
        let newItems := (cartItemsOf db cart.id).map (fun ci =>
          ({ order_id := order.id, product_id := ci.product_id,
             quantity := ci.quantity, price_xmr := priceOf db ci.product_id } : OrderItem))
        { db with
          addresses := db.addresses ++ [addr],
          orders := db.orders ++ [order],
          order_items := db.order_items ++ newItems,
          carts := db.carts.filter (fun c => !(c.id == cart.id)),
          cart_items := db.cart_items.filter (fun ci => !(ci.cart_id == cart.id)),
          next_id := db.next_id + 2 }

/-- Model of the interactive `MoneroBot._check_payment` (bot.py lines
663-726).  `payment_info` is the value returned by the
`monero.check_payment` oracle call.  Unknown order: no-op.  Past
`expires_at`: the status is set to `"expired"` — with no check of the current
status.  Otherwise, an observation meeting the confirmation threshold sets
the status to `"confirmed"`, stamps `confirmed_at` and appends a `Payment`
row — with no check for an existing `Payment` of this order.  Any other
observation (or none) changes nothing. -/
def check_payment_op (db : DB) (order_id : Nat) (now : Rat)
    (payment_info : Option Observation) : DB :=
  match db.orders.find? (fun o => o.id == order_id) with
  | none => db
  | some order =>
    if now > order.expires_at then
      replaceOrder db { order with status := "expired" }
    else
      match payment_info with
      | some info =>
        if info.confirmations ≥ CONFIRMATIONS_REQUIRED then
          let db1 := replaceOrder db { order with status := "confirmed", confirmed_at := some now }
          { db1 with payments := db1.payments ++
              [{ order_id := order.id, tx_hash := info.tx_hash,
                 amount_xmr := info.amount, confirmations := info.confirmations }] }
        else db
      | none => db

/-- Model of `MoneroHandler.verify_payment_complete` (monero_handler.py lines
225-276).  Unlike the interactive path, this one inserts the `Payment` row
only when none exists for the order, and it expires only a still-`pending`
order. -/
def verify_payment_complete (db : DB) (order_id : Nat) (now : Rat)
    (payment_info : Option Observation) : Bool × DB :=
  match db.orders.find? (fun o => o.id == order_id) with
  | none => (false, db)
  | some order =>
    match payment_info with
    | some info =>
      if info.confirmations ≥ CONFIRMATIONS_REQUIRED then
        let order1 := if order.status == "confirmed" then order
          else { order with status := "confirmed", confirmed_at := some now }
        let db1 := replaceOrder db order1
        let db2 :=
          if (db1.payments.find? (fun p => p.order_id == order.id)).isSome then db1
          else { db1 with payments := db1.payments ++
              [{ order_id := order.id, tx_hash := info.tx_hash,
                 amount_xmr := info.amount, confirmations := info.confirmations }] }
        (true, db2)
      else (false, db)
    | none =>
      if now > order.expires_at && order.status == "pending" then
        (false, replaceOrder db { order with status := "expired" })
      else (false, db)

/-- Model of the reaper `expire_old_orders` (bot.py lines 784-798): every
order with status `"pending"` and `expires_at < now` becomes `"expired"`. -/
def expire_old_orders (db : DB) (now : Rat) : DB :=
  { db with orders := db.orders.map (fun o =>
      if o.status == "pending" && decide (o.expires_at < now) then
        { o with status := "expired" }
      else o) }

/-- Mutation of a product's live price (`Product.price_xmr`); no code path of
the repository does this, it is the environment action of the price-snapshot
claim. -/
def update_product_price (db : DB) (pid : Nat) (newp : Rat) : DB :=
  { db with products := db.products.map (fun p =>
      if p.id == pid then { p with price_xmr := newp } else p) }

/-! ## Theorems -/

/-- C3: if the Payment Oracle call during order creation fails
(`create_payment_request` returned `None`), the committed database is exactly
the one before the attempt: no Order row (and no OrderItem) referencing the
attempted cart is persisted for any subsequent read, and the user's cart is
still present with its original items.  The `ShippingAddress` flushed before
the oracle call is likewise rolled back when the session closes without
commit. -/
theorem create_order_oracle_failure_no_partial (db : DB) (uid : Nat)
    (st : UserState) (now : Rat) :
    create_order_from_cart db uid st none now = db := by
  unfold create_order_from_cart
  split
  · rfl
  · split
    · rfl
    · rfl

/-- C8: a rate-limiter query is rejected exactly when the user already has
`max_calls` accepted-call timestamps inside the last `period` seconds; a
rejected attempt leaves the user's recorded timestamps as the pruned window
(nothing new recorded), while an accepted attempt appends the current time. -/
theorem rate_limiter_sliding_window (rl : RateLimiter) (uid : Nat) (now : Rat) :
    ((rl.is_allowed uid now).1 = false ↔
      rl.max_calls ≤ (rl.calls uid).countP (fun t => decide (now - t < rl.period))) ∧
    ((rl.is_allowed uid now).1 = false →
      (rl.is_allowed uid now).2.calls uid =
        (rl.calls uid).filter (fun t => decide (now - t < rl.period))) ∧
    ((rl.is_allowed uid now).1 = true →
      (rl.is_allowed uid now).2.calls uid =
        (rl.calls uid).filter (fun t => decide (now - t < rl.period)) ++ [now]) := by
  unfold RateLimiter.is_allowed
  by_cases h :
      rl.max_calls ≤ ((rl.calls uid).filter (fun t => decide (now - t < rl.period))).length
  · simp [h, List.countP_eq_length_filter]
  · simp [h, List.countP_eq_length_filter]

/-- C8 witness: user 7 has ten accepted timestamps inside the 60-second
window at time 100, so the eleventh query is rejected and records nothing. -/
def rateLimiterW : RateLimiter :=
  { calls := fun u => if u = 7 then [50, 51, 52, 53, 54, 55, 56, 57, 58, 59] else [],
    max_calls := 10, period := 60 }

/-- C8 witness theorem. -/
theorem rate_limiter_sliding_window_witness :
    (rateLimiterW.is_allowed 7 100).1 = false ∧
    (rateLimiterW.is_allowed 7 100).2.calls 7 =
      [50, 51, 52, 53, 54, 55, 56, 57, 58, 59] := by
  have h := rate_limiter_sliding_window rateLimiterW 7 100
  have hrej : (rateLimiterW.is_allowed 7 100).1 = false :=
    h.1.mpr (by norm_num [rateLimiterW, List.countP, List.countP.go])
  refine ⟨hrej, ?_⟩
  have h2 := h.2.1 hrej
  rw [h2]
  norm_num [rateLimiterW, List.filter]

/-- C9: a dialogue-state entry whose last activity (any write happens at or
after `created_at`) lies more than 3600 seconds in the past is replaced by a
fresh entry on the next `get_user_state` access; the fresh entry has no
checkout flow, so a subsequent message is not routed into the shipping
dialogue — the in-progress checkout is implicitly cancelled.  The
`_start_checkout` state update keeps `created_at` unchanged. -/
theorem stale_state_discarded (s : UserState) (last now : Rat)
    (hcreated : s.created_at ≤ last) (hidle : now - last > 3600) :
    get_user_state (some s) now = freshState now ∧
    (get_user_state (some s) now).checkout_flow = false ∧
    (∀ input, (collect_shipping_info (get_user_state (some s) now) input).2 =
      CollectOutcome.notInFlow) ∧
    (start_checkout_state s).created_at = s.created_at := by
  have h : now - s.created_at > 3600 := by linarith
  have hs : get_user_state (some s) now = freshState now := by
    simp [get_user_state, h]
  refine ⟨hs, ?_, ?_, rfl⟩
  · rw [hs]; rfl
  · intro input
    rw [hs]
    rfl

/-- C9 witness: a checkout begun at time 0 with no further activity is
discarded when accessed at time 4000. -/
theorem stale_state_discarded_witness :
    get_user_state (some (start_checkout_state (freshState 0))) 4000 = freshState 4000 ∧
    (collect_shipping_info (get_user_state (some (start_checkout_state (freshState 0))) 4000)
      "John Doe").2 = CollectOutcome.notInFlow := by
  have h := stale_state_discarded (start_checkout_state (freshState 0)) 0 4000
    (by decide) (by norm_num)
  exact ⟨h.1, h.2.2.1 "John Doe"⟩

/-- C10: at the `apt_number` step of the checkout dialogue every submitted
input — the empty string after stripping included — passes `_validate_input`
(which has no rule for this step) and advances the dialogue to the `city`
step, storing the stripped text; and when the shipping address is created,
exactly the inputs equal to `none` case-insensitively become a null
`apt_number`. -/
theorem apt_step_accepts_every_input (s : UserState) (input : String)
    (hflow : s.checkout_flow = true) (hstep : s.current_step = "apt_number") :
    (validate_input "apt_number" input).1 = true ∧
    (collect_shipping_info s input).2 = CollectOutcome.advanced ∧
    (collect_shipping_info s input).1.map UserState.current_step = some "city" ∧
    (collect_shipping_info s input).1.map UserState.apt_number = some (pyStrip input) ∧
    (apt_number_to_db (pyStrip input) = none ↔ pyLower (pyStrip input) = "none") := by
  have hv : validate_input "apt_number" (pyStrip input) = (true, "") := rfl
  refine ⟨rfl, ?_, ?_, ?_, ?_⟩
  · simp [collect_shipping_info, hflow, hstep, stepsInfo, hv, setField]
  · simp [collect_shipping_info, hflow, hstep, stepsInfo, hv, setField]
  · simp [collect_shipping_info, hflow, hstep, stepsInfo, hv, setField]
  · by_cases h : pyLower (pyStrip input) = "none" <;> simp [apt_number_to_db, h]

/-- C10 witness: the empty input at the `apt_number` step is accepted and the
dialogue advances to `city`; the input `None` maps to a null apartment
number. -/
theorem apt_step_accepts_every_input_witness :
    (collect_shipping_info
      { start_checkout_state (freshState 0) with current_step := "apt_number" } "").2 =
        CollectOutcome.advanced ∧
    (collect_shipping_info
      { start_checkout_state (freshState 0) with current_step := "apt_number" } "").1.map
        UserState.current_step = some "city" ∧
    apt_number_to_db (pyStrip "None") = none := by
  have h := apt_step_accepts_every_input
    { start_checkout_state (freshState 0) with current_step := "apt_number" } "" rfl rfl
  have h2 := apt_step_accepts_every_input
    { start_checkout_state (freshState 0) with current_step := "apt_number" } "None" rfl rfl
  exact ⟨h.2.1, h.2.2.1, h2.2.2.2.2.mpr (by decide)⟩

/-- Matching payment record used by the C4 counterexample (5 XMR observed
against 1 XMR expected). -/
def paymentC4 : PaymentRec :=
  { amount := 5000000000000, tx_hash := "txC4", block_height := 50 }

/-- RPC environment of the C4 counterexample: the `get_height` call fails
(transport failure) while a matching payment sits in `get_payments`. -/
def envFailC4 : RpcEnv :=
  { get_height := none, get_payments := some [paymentC4], get_transfers := some [] }

/-- C4 counterexample: under a wallet-RPC transport failure (`get_height`
returns the `rpc_call` failure value `None`), `check_payment` returns `None`
even though a matching transaction exists, so `None` is not returned only in
the no-matching-transaction case, and no distinct `OracleUnavailable` failure
is raised. -/
theorem check_payment_none_despite_matching_tx :
    check_payment envFailC4 "p" 1 = none ∧
    envFailC4.get_payments = some [paymentC4] ∧
    paymentMatches 1 paymentC4 = true := by
  refine ⟨rfl, rfl, ?_⟩
  unfold paymentMatches paymentC4
  norm_num [PICO, EPS]

/-- C4 amended: `check_payment` reports a wallet-RPC transport or parse
failure as the same `None` value it uses for "no matching transaction yet"
(`rpc_call` maps every failure to `None`, and a failed `get_height` makes
`check_payment` return `None` immediately); there is no distinct
`OracleUnavailable` outcome. -/
theorem check_payment_transport_failure_yields_none (env : RpcEnv) (pid : String)
    (x : Rat) (h : env.get_height = none) :
    check_payment env pid x = none := by
  unfold check_payment
  rw [h]

/-- C4 witness for the amended theorem. -/
theorem check_payment_transport_failure_yields_none_witness :
    check_payment { get_height := none, get_payments := some [], get_transfers := some [] }
      "p" 1 = none :=
  check_payment_transport_failure_yields_none
    { get_height := none, get_payments := some [], get_transfers := some [] } "p" 1 rfl

/-- Transfer record used by the C5 counterexample: 0.9999999 XMR observed,
within 1e-6 of the 1 XMR expected, addressed with the payment id. -/
def transferC5 : TransferRec :=
  { address := "addr-pid-xyz", amount := 999999900000, txid := "t5", confirmations := 5 }

/-- RPC environment of the C5 counterexample: nothing on the `get_payments`
path, the near-matching transfer on the fallback path. -/
def envC5 : RpcEnv :=
  { get_height := some 100, get_payments := some [], get_transfers := some [transferC5] }

/-- C5 counterexample: an observed transaction whose amount is within 1e-6
below the expected minimum (0.9999999 against 1) reaches only the
`get_transfers` matching path, and `check_payment` rejects it (returns
`None`): the epsilon tolerance does not hold on every matching path. -/
theorem epsilon_not_on_fallback_path :
    check_payment envC5 "pid" 1 = none ∧
    (transferC5.amount : Rat) / PICO ≥ 1 - EPS ∧
    containsSub transferC5.address "pid" = true ∧
    transferC5.address ≠ "" := by
  have hx : ¬ ((transferC5.amount : Rat) / PICO ≥ (1 : Rat)) := by
    norm_num [transferC5, PICO]
  have hm : transferMatches "pid" 1 transferC5 = false := by
    simp [transferMatches, decide_eq_false hx]
  have hfind : List.find? (transferMatches "pid" 1) [transferC5] = none := by
    rw [List.find?_cons_of_neg _ (by simp [hm])]
    rfl
  refine ⟨?_, by norm_num [transferC5, PICO, EPS], by decide, by decide⟩
  unfold check_payment
  simp [envC5, hfind]

/-- C5 amended: the epsilon tolerance of 1e-6 applies on the `get_payments`
matching path, where any amount at least `expected - 1e-6` is accepted; the
`get_transfers` fallback path instead accepts exactly the amounts at least
`expected`, with no epsilon. -/
theorem epsilon_only_on_payments_path (h : Nat) (p : PaymentRec) (t : TransferRec)
    (pid : String) (x : Rat)
    (hp : (p.amount : Rat) / PICO ≥ x - EPS)
    (ht1 : t.address ≠ "") (ht2 : containsSub t.address pid = true) :
    (check_payment { get_height := some h, get_payments := some [p],
                     get_transfers := some [] } pid x).isSome = true ∧
    ((check_payment { get_height := some h, get_payments := some [],
                      get_transfers := some [t] } pid x).isSome = true ↔
        (t.amount : Rat) / PICO ≥ x) := by
  have haddr : (t.address == "") = false := beq_eq_false_iff_ne.mpr ht1
  constructor
  · have hm1 : paymentMatches x p = true := decide_eq_true hp
    unfold check_payment
    simp [hm1]
  · by_cases hx : (t.amount : Rat) / PICO ≥ x
    · have hm2 : transferMatches pid x t = true := by
        unfold transferMatches
        rw [decide_eq_true hx]
        simp [haddr, ht2]
      unfold check_payment
      simp [hm2, hx]
    · have hm2 : transferMatches pid x t = false := by
        unfold transferMatches
        rw [decide_eq_false hx]
        simp
      unfold check_payment
      simp [hm2, hx]

/-- C5 witness for the amended theorem: 0.999999 XMR (exactly expected minus
epsilon) is accepted on the `get_payments` path, and exactly 1 XMR is
accepted on the fallback path. -/
theorem epsilon_only_on_payments_path_witness :
    (check_payment { get_height := some 100,
                     get_payments := some [{ amount := 999999000000, tx_hash := "tx",
                                             block_height := 10 }],
                     get_transfers := some [] } "pid" 1).isSome = true ∧
    (check_payment { get_height := some 100, get_payments := some [],
                     get_transfers := some [{ address := "a-pid", amount := 1000000000000,
                                              txid := "ttx", confirmations := 3 }] }
      "pid" 1).isSome = true := by
  have h := epsilon_only_on_payments_path 100
    { amount := 999999000000, tx_hash := "tx", block_height := 10 }
    { address := "a-pid", amount := 1000000000000, txid := "ttx", confirmations := 3 }
    "pid" 1 (by norm_num [PICO, EPS]) (by decide) (by decide)
  exact ⟨h.1, h.2.mpr (by norm_num [PICO])⟩

/-- Pending order used by the C1 failing input: 1 XMR, expires at time
1000. -/
def orderC1 : Order :=
  { id := 1, user_id := 1, shipping_address_id := 1, total_amount_xmr := 1,
    payment_address := "A", payment_id := "P", payment_request := "R",
    status := "pending", expires_at := 1000, confirmed_at := none }

/-- Database of the C1 failing input: the single pending order, no payments
yet. -/
def dbC1 : DB :=
  { products := [], carts := [], cart_items := [], orders := [orderC1],
    order_items := [], payments := [], addresses := [], next_id := 10 }

/-- Oracle observation meeting the confirmation threshold (10). -/
def obsC1 : Observation := { tx_hash := "T", amount := 1, confirmations := 10 }

/-- C1 failing input: pressing Check twice in immediate succession (time 100,
before expiry) on an order whose observation meets the threshold leaves TWO
Payment rows for the order via the interactive `_check_payment` path, which
inserts unconditionally — while the sibling `verify_payment_complete`
implementation, which guards on an existing Payment row exactly as the spec
describes, leaves exactly one. -/
theorem check_twice_creates_two_payments :
    ((check_payment_op (check_payment_op dbC1 1 100 (some obsC1)) 1 100
        (some obsC1)).payments.countP (fun pmt => pmt.order_id == 1)) = 2 ∧
    ((verify_payment_complete (verify_payment_complete dbC1 1 100 (some obsC1)).2
        1 100 (some obsC1)).2.payments.countP (fun pmt => pmt.order_id == 1)) = 1 := by
  have hexp : ¬ ((100 : Rat) > 1000) := by norm_num
  constructor
  · norm_num [check_payment_op, dbC1, orderC1, obsC1, replaceOrder,
      CONFIRMATIONS_REQUIRED, hexp, List.countP, List.countP.go]
  · norm_num [verify_payment_complete, dbC1, orderC1, obsC1, replaceOrder,
      CONFIRMATIONS_REQUIRED, hexp, List.countP, List.countP.go]

/-- Confirmed order used by the C2 failing input: confirmed at time 500, its
expiry timestamp 1000 already in the past at the time of the next Check. -/
def orderC2 : Order :=
  { id := 2, user_id := 1, shipping_address_id := 1, total_amount_xmr := 1,
    payment_address := "A", payment_id := "P", payment_request := "R",
    status := "confirmed", expires_at := 1000, confirmed_at := some 500 }

/-- Database of the C2 failing input. -/
def dbC2 : DB :=
  { products := [], carts := [], cart_items := [], orders := [orderC2],
    order_items := [], payments := [], addresses := [], next_id := 10 }

/-- C2 failing input: an interactive Check at time 2000 on the already
`confirmed` order re-transitions it to `expired`, because `_check_payment`
sets the status on `now > expires_at` without checking that the order is
still `pending` — so `confirmed` is not terminal under the Check operation.
(The reaper by contrast filters on status `pending`.) -/
theorem confirmed_order_reexpired_by_check :
    dbC2.orders.map Order.status = ["confirmed"] ∧
    (check_payment_op dbC2 2 2000 none).orders.map Order.status = ["expired"] := by
  have hexp : ((2000 : Rat) > 1000) := by norm_num
  constructor
  · rfl
  · norm_num [check_payment_op, dbC2, orderC2, replaceOrder, hexp]

/-- C6: placing an order snapshots each cart item's current product price
into the `OrderItem` (`price_xmr=cart_item.product.price_xmr`), and a later
change of the referenced `Product.price_xmr` leaves the placed order's
`order_items` (hence its stored prices) and its `orders` row (hence
`total_amount_xmr`) unchanged. -/
theorem price_snapshot_isolation (db : DB) (uid : Nat) (st : UserState)
    (pd : PaymentData) (now : Rat) (pid : Nat) (newp : Rat) :
    (update_product_price (create_order_from_cart db uid st (some pd) now) pid newp).order_items
      = (create_order_from_cart db uid st (some pd) now).order_items ∧
    (update_product_price (create_order_from_cart db uid st (some pd) now) pid newp).orders
      = (create_order_from_cart db uid st (some pd) now).orders ∧
    ∀ oi ∈ (create_order_from_cart db uid st (some pd) now).order_items,
      oi ∉ db.order_items → oi.price_xmr = priceOf db oi.product_id := by
  refine ⟨rfl, rfl, ?_⟩
  intro oi hmem hnot
  unfold create_order_from_cart at hmem
  cases hfind : db.carts.find? (fun c => c.user_id == uid) with
  | none =>
    simp only [hfind] at hmem
    exact absurd hmem hnot
  | some cart =>
    simp only [hfind] at hmem
    by_cases hempty : (cartItemsOf db cart.id).isEmpty = true
    · rw [if_pos hempty] at hmem
      exact absurd hmem hnot
    · rw [if_neg hempty] at hmem
      simp only [List.mem_append, List.mem_map] at hmem
      rcases hmem with hold | ⟨ci, _, hci⟩
      · exact absurd hold hnot
      · rw [← hci]

/-- Concrete product for the C6 witness: price 1 XMR. -/
def productC6 : Product := { id := 1, name := "N", price_xmr := 1, is_available := true }

/-- Concrete database for the C6 witness: one product, one cart of user 5
holding one unit of it. -/
def dbC6 : DB :=
  { products := [productC6], carts := [{ id := 2, user_id := 5 }],
    cart_items := [{ id := 3, cart_id := 2, product_id := 1, quantity := 1 }],
    orders := [], order_items := [], payments := [], addresses := [], next_id := 4 }

/-- Concrete oracle answer for the C6 witness. -/
def pdC6 : PaymentData :=
  { payment_request := "r", integrated_address := "a", payment_id := "p" }

/-- The order item the C6 witness order contains. -/
def oiC6 : OrderItem := { order_id := 5, product_id := 1, quantity := 1, price_xmr := 1 }

/-- C6 witness: creating the order from `dbC6` and then raising the product
price to 2 leaves the order's items unchanged, and the snapshotted item price
equals the price at creation time. -/
theorem price_snapshot_isolation_witness :
    (update_product_price (create_order_from_cart dbC6 5 (freshState 0) (some pdC6) 0) 1 2).order_items
      = (create_order_from_cart dbC6 5 (freshState 0) (some pdC6) 0).order_items ∧
    oiC6.price_xmr = priceOf dbC6 oiC6.product_id := by
  have h := price_snapshot_isolation dbC6 5 (freshState 0) pdC6 0 1 2
  refine ⟨h.1, h.2.2 oiC6 ?_ ?_⟩
  · show oiC6 ∈ (create_order_from_cart dbC6 5 (freshState 0) (some pdC6) 0).order_items
    norm_num [create_order_from_cart, dbC6, productC6, pdC6, oiC6, cartItemsOf,
      cartTotal, priceOf, freshState, apt_number_to_db, pyLower]
  · show oiC6 ∉ dbC6.order_items
    simp [dbC6]

/-- Helper: `find?` commutes with mapping a function that does not change
the predicate's verdict on any element. -/
theorem find_map_pred_invariant {α : Type} (g : α → α) (p : α → Bool)
    (h : ∀ x, p (g x) = p x) :
    ∀ l : List α, (l.map g).find? p = (l.find? p).map g := by
  intro l
  induction l with
  | nil => rfl
  | cons a as ih =>
    by_cases hpa : p a = true
    · rw [List.map_cons, List.find?_cons_of_pos as hpa,
        List.find?_cons_of_pos (as.map g) ((h a).trans hpa)]
      rfl
    · rw [List.map_cons, List.find?_cons_of_neg as (by simp [hpa]),
        List.find?_cons_of_neg (as.map g) (by simp [h a, hpa]), ih]

/-- C7: adding a product to the cart of a user (the product exists):
(1) when a `CartItem` for this product is already in the user's cart, its
quantity is incremented by one, no second line item is created (the item
count is unchanged), and the carts table is untouched;
(2) when the user has a cart without that product, exactly one new `CartItem`
with quantity 1 is appended;
(3) when the user has no cart, a cart is created and one `CartItem` with
quantity 1 is appended. -/
theorem add_to_cart_merge (db : DB) (uid pid : Nat)
    (hp : (db.products.find? (fun q => q.id == pid)).isSome = true) :
    (∀ c ci, db.carts.find? (fun k => k.user_id == uid) = some c →
      db.cart_items.find? (fun x => x.cart_id == c.id && x.product_id == pid) = some ci →
        (add_to_cart db uid pid).cart_items.find?
            (fun x => x.cart_id == c.id && x.product_id == pid) =
          some { ci with quantity := ci.quantity + 1 } ∧
        (add_to_cart db uid pid).cart_items.length = db.cart_items.length ∧
        (add_to_cart db uid pid).carts = db.carts) ∧
    (∀ c, db.carts.find? (fun k => k.user_id == uid) = some c →
      db.cart_items.find? (fun x => x.cart_id == c.id && x.product_id == pid) = none →
        (add_to_cart db uid pid).cart_items =
          db.cart_items ++ [{ id := db.next_id, cart_id := c.id,
                              product_id := pid, quantity := 1 }] ∧
        (add_to_cart db uid pid).carts = db.carts) ∧
    (db.carts.find? (fun k => k.user_id == uid) = none →
      (∀ x ∈ db.cart_items, (x.cart_id == db.next_id) = false) →
        (add_to_cart db uid pid).carts = db.carts ++ [{ id := db.next_id, user_id := uid }] ∧
        (add_to_cart db uid pid).cart_items =
          db.cart_items ++ [{ id := db.next_id + 1, cart_id := db.next_id,
                              product_id := pid, quantity := 1 }]) := by
  obtain ⟨prod, hprod⟩ := Option.isSome_iff_exists.mp hp
  refine ⟨?_, ?_, ?_⟩
  · intro c ci hc hci
    have hgpred : ∀ x : CartItem,
        ((if x.id == ci.id then { x with quantity := x.quantity + 1 } else x).cart_id == c.id &&
          (if x.id == ci.id then { x with quantity := x.quantity + 1 } else x).product_id == pid)
          = (x.cart_id == c.id && x.product_id == pid) := by
      intro x
      by_cases hx : (x.id == ci.id) = true
      · simp [hx]
      · simp [hx]
    have hadd : add_to_cart db uid pid =
        { db with cart_items := db.cart_items.map (fun x =>
            if x.id == ci.id then { x with quantity := x.quantity + 1 } else x) } := by
      unfold add_to_cart add_cart_item
      simp only [hprod, hc, hci]
    rw [hadd]
    refine ⟨?_, by simp, rfl⟩
    show (db.cart_items.map (fun x =>
        if x.id == ci.id then { x with quantity := x.quantity + 1 } else x)).find?
      (fun x => x.cart_id == c.id && x.product_id == pid) = _
    rw [find_map_pred_invariant _ _ hgpred db.cart_items, hci]
    simp
  · intro c hc hci
    have hadd : add_to_cart db uid pid =
        { db with cart_items := db.cart_items ++
                    [{ id := db.next_id, cart_id := c.id, product_id := pid, quantity := 1 }],
                  next_id := db.next_id + 1 } := by
      unfold add_to_cart add_cart_item
      simp only [hprod, hc, hci]
    rw [hadd]
    exact ⟨rfl, rfl⟩
  · intro hc hfresh
    have hnone :
        db.cart_items.find? (fun x => x.cart_id == db.next_id && x.product_id == pid) = none :=
      List.find?_eq_none.mpr (fun x hx => by simp [hfresh x hx])
    have hadd : add_to_cart db uid pid =
        { db with carts := db.carts ++ [{ id := db.next_id, user_id := uid }],
                  cart_items := db.cart_items ++
                    [{ id := db.next_id + 1, cart_id := db.next_id,
                       product_id := pid, quantity := 1 }],
                  next_id := db.next_id + 1 + 1 } := by
      unfold add_to_cart add_cart_item
      simp only [hprod, hc, hnone]
    rw [hadd]
    exact ⟨rfl, rfl⟩

/-- Concrete database for the C7 witness: one product, one cart of user 5
already holding two units of it. -/
def dbC7 : DB :=
  { products := [productC6], carts := [{ id := 2, user_id := 5 }],
    cart_items := [{ id := 3, cart_id := 2, product_id := 1, quantity := 2 }],
    orders := [], order_items := [], payments := [], addresses := [], next_id := 4 }

/-- C7 witness: adding product 1 (already at quantity 2) once more yields
quantity 3 on the same line item and no second line item. -/
theorem add_to_cart_merge_witness :
    (add_to_cart dbC7 5 1).cart_items.find? (fun x => x.cart_id == 2 && x.product_id == 1)
      = some { id := 3, cart_id := 2, product_id := 1, quantity := 3 } ∧
    (add_to_cart dbC7 5 1).cart_items.length = dbC7.cart_items.length := by
  have h := add_to_cart_merge dbC7 5 1 rfl
  have h1 := h.1 { id := 2, user_id := 5 } { id := 3, cart_id := 2, product_id := 1, quantity := 2 }
    rfl rfl
  exact ⟨h1.1, h1.2.1⟩

end EastcoatsRL
